import Mathlib

/-!
# Verification of `memprofilerx` (tracker + reporter)

Shallow embedding of `src/memprofilerx/tracker.py` and
`src/memprofilerx/reporter.py`.

Modelling conventions:
* Python floats are modelled as rationals (`ℚ`); integer byte sizes as `ℕ`.
* A raised Python exception is a `PyExc`; the handler-relevant class
  (`OSError`, `ImportError`, …) is tracked explicitly because the source's
  `except` clauses dispatch on it.  Interpolated values in exception
  messages are elided from the modelled message strings.
* Fallible code returns `Except`; a thrown exception is the `.error` case.
* The background sampler thread is modelled as a recursive function over the
  list of loop iterations ("ticks") it would execute: each tick records the
  stop-flag value observed at the top of the loop and the outcome of the
  footprint read.
* Side effects relevant to the claims (starting the sampler, invoking the
  wrapped unit of work, joining the sampler, running the census, attempting
  an export sink) are recorded in an `Event` trace returned next to the
  result, so "X happens before Y / never happens" is provable.
-/

set_option autoImplicit false

namespace Memprofilerx

/-- Exception classes that the source's `except` clauses distinguish:
`OSError` (`tracker.py` lines 282, 295), `ImportError` (line 268), and the
remaining `Exception` subclasses (`ValueError`, `TypeError`, anything else). -/
inductive ExcKind where
  | osError
  | importError
  | valueError
  | typeError
  | otherError
deriving DecidableEq

/-- A raised Python exception: its class and (abstracted) message. -/
structure PyExc where
  cls : ExcKind
  msg : String
deriving DecidableEq

/-- What a caller of the two tracker entry points can observe go wrong:
* `invalidArgument` — the `ValueError`s raised by configuration validation
  (`tracker.py` lines 55-58, 217-218);
* `runtimeError` — the `RuntimeError` wrapping a fatal monitor failure
  (`tracker.py` line 113);
* `workFailure` — the wrapped unit of work's own exception, re-raised
  (`tracker.py` lines 103-105, 252-254);
* `uncaughtExport` — an exception escaping the export block in the
  `finally` clause of `global_tracker` (it replaces the in-flight
  result/exception, Python `finally` semantics). -/
inductive TrackerErr where
  | invalidArgument (msg : String)
  | runtimeError (cause : PyExc)
  | workFailure (e : PyExc)
  | uncaughtExport (e : PyExc)
deriving DecidableEq

/-! ## Live-object census (`tracker.py`, `analyze_live_objects`, lines 131-181) -/

/-- One object reachable by `gc.get_objects()` at census time: its runtime
type name and the result of `sys.getsizeof` — `none` when sizing raised
(`TypeError`/`AttributeError`/`ReferenceError`, lines 167-169, or any other
exception, lines 170-172), in which case the object is skipped. -/
structure HeapObj where
  typeName : String
  size : Option ℕ
deriving DecidableEq

/-- Number of successfully sized objects of type `ty` in the walk order
(the per-type effect of `stats[type_name]["count"] += 1`, line 165). -/
def sizedCount : List HeapObj → String → ℕ
  | [], _ => 0
  | o :: rest, ty =>
    (match o.size with
     | none => 0
     | some _ => if o.typeName = ty then 1 else 0) + sizedCount rest ty

/-- Accumulated shallow size in bytes of the successfully sized objects of
type `ty` (the per-type effect of `stats[type_name]["total_size"] += size`,
line 166). -/
def sizedTotal : List HeapObj → String → ℕ
  | [], _ => 0
  | o :: rest, ty =>
    (match o.size with
     | none => 0
     | some sz => if o.typeName = ty then sz else 0) + sizedTotal rest ty

/-- The `defaultdict(lambda: {"count": 0, "total_size": 0})` of line 159,
modelled as a total function with default `(0, 0)`; `bump` is the pair of
in-place increments at lines 165-166. -/
def bump (stats : String → ℕ × ℕ) (ty : String) (sz : ℕ) : String → ℕ × ℕ :=
  fun t => if t = ty then ((stats ty).1 + 1, (stats ty).2 + sz) else stats t

/-- One iteration of the `for obj in gc.get_objects()` loop (lines 161-172):
objects whose sizing failed are skipped, the rest bump their type's entry. -/
def statsStep (acc : String → ℕ × ℕ) (o : HeapObj) : String → ℕ × ℕ :=
  match o.size with
  | none => acc
  | some sz => bump acc o.typeName sz

/-- The full walk of lines 161-172. -/
def buildStats (heap : List HeapObj) : String → ℕ × ℕ :=
  heap.foldl statsStep (fun _ => (0, 0))

/-- Round-half-to-even on rationals: the rounding mode of Python's built-in
`round`. -/
def roundHalfEven (q : ℚ) : ℤ :=
  if q - ⌊q⌋ < 1 / 2 then ⌊q⌋
  else if 1 / 2 < q - ⌊q⌋ then ⌊q⌋ + 1
  else if ⌊q⌋ % 2 = 0 then ⌊q⌋ else ⌊q⌋ + 1

/-- Python's `round(x, 2)` (line 177). -/
def round2 (q : ℚ) : ℚ := (roundHalfEven (q * 100) : ℚ) / 100

/-- One value of the returned mapping (lines 174-181). -/
structure CensusEntry where
  count : ℕ
  total_size_kb : ℚ
deriving DecidableEq

/-- `analyze_live_objects` (lines 131-181).  The threshold check of lines
156-157 precedes the walk; the returned dict comprehension of lines 174-181
keeps a type iff it was touched during the walk (`count ≠ 0`, membership in
`stats.items()`) and its unrounded `total_size / 1024` strictly exceeds
`min_size_kb`; the reported `total_size_kb` is rounded to 2 decimals.
The mapping is modelled as a partial function from type names, the census
heap snapshot as an explicit argument. -/
def analyze_live_objects (heap : List HeapObj) (min_size_kb : ℚ := 100) :
    Except PyExc (String → Option CensusEntry) :=
  if min_size_kb < 0 then
    .error ⟨.valueError, "min_size_kb must be non-negative"⟩
  else
    .ok fun ty =>
      let data := buildStats heap ty
      if data.1 ≠ 0 ∧ min_size_kb < (data.2 : ℚ) / 1024 then
        some ⟨data.1, round2 ((data.2 : ℚ) / 1024)⟩
      else none

instance instDecEqExcept {ε α : Type} [DecidableEq ε] [DecidableEq α] :
    DecidableEq (Except ε α) := fun x y =>
  match x, y with
  | .ok a, .ok b =>
    match decEq a b with
    | isTrue h => isTrue (h ▸ rfl)
    | isFalse h => isFalse fun he => h (Except.ok.inj he)
  | .error a, .error b =>
    match decEq a b with
    | isTrue h => isTrue (h ▸ rfl)
    | isFalse h => isFalse fun he => h (Except.error.inj he)
  | .ok _, .error _ => isFalse fun he => Except.noConfusion he
  | .error _, .ok _ => isFalse fun he => Except.noConfusion he

/-! ## Scoped tracker (`tracker.py`, `track_memory`, lines 25-128) -/

/-- Observable side effects of one tracked call, in occurrence order. -/
inductive Event where
  | samplerStarted
  | workInvoked
  | samplerJoined
  | censusRun
  | sinkPng
  | sinkJson
  | sinkCsv
deriving DecidableEq

/-- One iteration of the sampler loop (`monitor`, lines 76-96): the
`stop_event` value observed at the loop head (line 76) and the outcome of
the footprint read of lines 78-79, as a relative timestamp and a value in
MB.  The per-sample callback of lines 83-88 catches its own failures and
alters neither the control flow nor the series, so it is not represented. -/
structure Tick where
  stop : Bool
  read : Except PyExc (ℚ × ℚ)
deriving DecidableEq

/-- The validation guard `duration is not None and duration <= 0` of
line 57. -/
def durInvalid (duration : Option ℚ) : Bool :=
  match duration with
  | some d => decide (d ≤ 0)
  | none => false

/-- The Python truthiness-guarded cap check `if duration and timestamp >=
duration` of line 90: falsy `duration` (absent, or zero) never breaks. -/
def durationBreak (duration : Option ℚ) (timestamp : ℚ) : Bool :=
  match duration with
  | none => false
  | some d => if d = 0 then false else decide (d ≤ timestamp)

/-- The sampler loop of `track_memory` (lines 73-96), run over the list of
iterations it would execute.  Returns the appended series and the final
`monitor_error` (line 71, set at lines 93-96 when the read raises). -/
def monitor (duration : Option ℚ) : List Tick → List (ℚ × ℚ) × Option PyExc
  | [] => ([], none)
  | t :: ts =>
    if t.stop then ([], none)
    else
      match t.read with
      | .error e => ([], some e)
      | .ok s =>
        if durationBreak duration s.1 then ([s], none)
        else
          let rest := monitor duration ts
          (s :: rest.1, rest.2)

/-- The census step of lines 117-122: `analyze_live_objects()` is called
with its default threshold (100), and a census failure is caught and
replaced by the empty mapping. -/
def runCensus (heap : List HeapObj) : String → Option CensusEntry :=
  match analyze_live_objects heap with
  | .ok m => m
  | .error _ => fun _ => none

/-- What the scoped tracker hands back on success (lines 115-124). -/
structure ScopedOutput (R : Type) where
  result : R
  memory_usage : List (ℚ × ℚ)
  live_objects : Option (String → Option CensusEntry)

/-- One complete call of a `track_memory`-decorated function, including the
construction-time validation of lines 55-58.  Inputs beyond the
configuration: the unit of work's outcome, the sampler's iterations, and
the heap snapshot seen by the census.  Returns the caller-observable
outcome and the event trace.  Faithful control flow:
* validation failure raises before anything else happens (empty trace);
* the work's own exception is re-raised after stop/join (lines 101-110)
  and pre-empts the `monitor_error` check of lines 112-113, which is only
  reached when the work returned normally;
* the census (lines 117-122) runs only on the fully successful path. -/
def track_memory_run {R : Type} (interval : ℚ) (duration : Option ℚ)
    (analyze_gc : Bool) (work : Except PyExc R) (ticks : List Tick)
    (heap : List HeapObj) :
    Except TrackerErr (ScopedOutput R) × List Event :=
  if interval ≤ 0 then
    (.error (.invalidArgument "Interval must be positive"), [])
  else if durInvalid duration then
    (.error (.invalidArgument "Duration must be positive or None"), [])
  else
    let m := monitor duration ticks
    match work with
    | .error e =>
      (.error (.workFailure e), [.samplerStarted, .workInvoked, .samplerJoined])
    | .ok r =>
      match m.2 with
      | some e =>
        (.error (.runtimeError e), [.samplerStarted, .workInvoked, .samplerJoined])
      | none =>
        if analyze_gc then
          (.ok ⟨r, m.1, some (runCensus heap)⟩,
            [.samplerStarted, .workInvoked, .samplerJoined, .censusRun])
        else
          (.ok ⟨r, m.1, none⟩, [.samplerStarted, .workInvoked, .samplerJoined])

/-! ## Unscoped tracker (`tracker.py`, `global_tracker`, lines 184-301) -/

/-- One iteration of the `global_tracker` sampler loop (lines 232-244): no
cap duration and no callback; a failed read is logged and simply breaks. -/
structure GTick where
  stop : Bool
  read : Except PyExc (ℚ × ℚ)
deriving DecidableEq

/-- The sampler loop of `global_tracker` (lines 232-244). -/
def gmonitor : List GTick → List (ℚ × ℚ)
  | [] => []
  | t :: ts =>
    if t.stop then []
    else
      match t.read with
      | .error _ => []
      | .ok s => s :: gmonitor ts

/-- Behaviour of the three export sinks in one run: `none` — the sink is
not configured (its path argument is falsy); `some none` — the sink body
runs without raising; `some (some e)` — the sink body raises `e`. -/
structure SinkEnv where
  png : Option (Option PyExc)
  json : Option (Option PyExc)
  csv : Option (Option PyExc)
deriving DecidableEq

/-- The PNG sink's handlers (lines 268-273): `except ImportError` then
`except Exception` — every exception class modelled here is caught.
(`BaseException`s such as `KeyboardInterrupt` are outside the model.) -/
def pngCaught (_ : PyExc) : Bool := true

/-- The JSON and CSV sinks' sole handler, `except OSError`
(lines 282, 295). -/
def ioCaught (e : PyExc) : Bool :=
  match e.cls with
  | .osError => true
  | _ => false

/-- One guarded sink attempt: skipped when unconfigured; otherwise the body
runs and a raised exception either is caught (logged, execution continues)
or escapes. -/
def runSink (cfg : Option (Option PyExc)) (caught : PyExc → Bool)
    (ev : Event) : Option PyExc × List Event :=
  match cfg with
  | none => (none, [])
  | some none => (none, [ev])
  | some (some e) => ((if caught e then none else some e), [ev])

/-- The sequential export block of the `finally` clause (lines 262-297):
PNG, then JSON, then CSV; an exception escaping one sink's handler aborts
the remaining statements of the `finally` block. -/
def runExports (env : SinkEnv) : Option PyExc × List Event :=
  let p := runSink env.png pngCaught .sinkPng
  match p.1 with
  | some e => (some e, p.2)
  | none =>
    let j := runSink env.json ioCaught .sinkJson
    match j.1 with
    | some e => (some e, p.2 ++ j.2)
    | none =>
      let c := runSink env.csv ioCaught .sinkCsv
      (c.1, p.2 ++ j.2 ++ c.2)

/-- One complete call of a `global_tracker`-decorated function, including
the validation of lines 217-218.  Python `finally` semantics: an exception
escaping the export block replaces the unit of work's pending return value
or exception; otherwise the work's own outcome stands (lines 249-297). -/
def global_tracker_run {R : Type} (interval : ℚ) (env : SinkEnv)
    (work : Except PyExc R) (gticks : List GTick) :
    Except TrackerErr R × List Event × List (ℚ × ℚ) :=
  if interval ≤ 0 then
    (.error (.invalidArgument "Interval must be positive"), [], [])
  else
    let memData := gmonitor gticks
    let ex := runExports env
    let events := [Event.samplerStarted, Event.workInvoked, Event.samplerJoined] ++ ex.2
    match ex.1 with
    | some e => (.error (.uncaughtExport e), events, memData)
    | none =>
      match work with
      | .error e => (.error (.workFailure e), events, memData)
      | .ok r => (.ok r, events, memData)

/-! ## Report renderer (`reporter.py`) and the trackers' on-disk formats

The renderers are modelled as pure functions from the series to the value
they would write; a raised exception is the `.error` case, and since in
the source every emptiness check precedes the first write, an `.error`
result carries no written output (no partial file exists). -/

/-- Python's `str()` on a sample coordinate, used by `csv.writer` for the
data cells (reporter.py line 232).  The exact decimal digits of a float's
`str()` are not representable over the rational abstraction and are not
load-bearing for any property below; only the line/cell structure is. -/
def csvCell (q : ℚ) : String := toString q

/-- One data row written by `csv.writerows(mem_data)` (line 232): the two
cells joined by the delimiter. -/
def csvRow (p : ℚ × ℚ) : String := csvCell p.1 ++ "," ++ csvCell p.2

/-- `export_to_csv` (reporter.py lines 204-237), as the list of lines it
writes: the emptiness check of lines 222-223 first, then the header row of
line 231 and one row per sample (line 232).  The `except OSError` re-wrap
of lines 235-237 concerns only write failures, which the pure model does
not produce. -/
def export_to_csv (mem_data : List (ℚ × ℚ)) : Except PyExc (List String) :=
  if mem_data.isEmpty then
    .error ⟨.valueError, "No memory data provided to export."⟩
  else
    .ok ("timestamp_seconds,memory_mb" :: mem_data.map csvRow)

/-- Zero-pad a digit string on the left to `n` characters. -/
def padZeros (s : String) (n : ℕ) : String :=
  String.mk (List.replicate (n - s.length) '0') ++ s

/-- Python fixed-point formatting `f"{q:.prec f}"`: round half-to-even at
`prec` decimals, print with exactly `prec` fractional digits. -/
def formatFixed (prec : ℕ) (q : ℚ) : String :=
  let scaled := roundHalfEven (q * (10 ^ prec : ℕ))
  let sign := if scaled < 0 then "-" else ""
  let n := scaled.natAbs
  sign ++ toString (n / 10 ^ prec) ++ "." ++ padZeros (toString (n % 10 ^ prec)) prec

/-- The CSV sink inside `global_tracker` (tracker.py lines 286-297), as the
list of lines it writes: the hand-written header `"timestamp,memory_mb"`
(line 291) followed by one `f"{timestamp:.3f},{mem:.2f}"` row per sample
(lines 292-293). -/
def global_csv_lines (mem_data : List (ℚ × ℚ)) : List String :=
  "timestamp,memory_mb" ::
    mem_data.map (fun p => formatFixed 3 p.1 ++ "," ++ formatFixed 2 p.2)

/-- JSON values: numbers and arrays are all `json.dump` produces for a
series; `str` stands for the remaining JSON scalars (strings, booleans,
null), which the series writer never emits but the CLI reader may
encounter in an arbitrary input document. -/
inductive JsonVal where
  | num (q : ℚ)
  | str (s : String)
  | arr (elems : List JsonVal)

/-- The document written by the JSON sink of `global_tracker`
(tracker.py lines 275-284): `json.dump(mem_data, f, indent=2)` serialises
the list of `(timestamp, mem)` tuples as an array of two-element arrays,
in series order.  The text layer (indentation, digits) is abstracted; the
tree is the canonical content. -/
def json_dump_series (mem_data : List (ℚ × ℚ)) : JsonVal :=
  JsonVal.arr (mem_data.map fun p => JsonVal.arr [JsonVal.num p.1, JsonVal.num p.2])

/-- One item's validation in the CLI reader,
`isinstance(item, list) and len(item) == 2` (cli.py line 156): a
two-element JSON array of *any* element types is accepted and denotes the
pair of its elements; anything else fails the check. -/
def json_read_pair : JsonVal → Option (JsonVal × JsonVal)
  | JsonVal.arr [x, y] => some (x, y)
  | _ => none

/-- The item loop of the CLI reader (`all(...)` on cli.py lines 155-157):
every item must pass `json_read_pair`, and the accepted items are handed
on in order; one failing item invalidates the whole document. -/
def json_read_items : List JsonVal → Option (List (JsonVal × JsonVal))
  | [] => some []
  | item :: rest =>
    match json_read_pair item with
    | none => none
    | some q => (json_read_items rest).map (fun l => q :: l)

/-- The persisted-series reader of the CLI `convert` command (cli.py lines
151-161): `json.load` yields the document; it is accepted iff it is a
list all of whose items are two-element lists — element types are not
inspected — and the pairs are then handed to the renderers in order;
otherwise the command reports the invalid format and exits (`none`). -/
def json_read_series : JsonVal → Option (List (JsonVal × JsonVal))
  | JsonVal.arr items => json_read_items items
  | _ => none

/-- What `plot_memory` (reporter.py lines 146-201) commits to disk, up to
the rendering backend: the two unzipped coordinate lists (line 171), the
title and the destination path. -/
structure PlotOutput where
  timestamps : List ℚ
  values : List ℚ
  title : String
  path : String

/-- `plot_memory` (reporter.py lines 146-201): the emptiness check of
lines 167-168 precedes everything; `zip(*mem_data, strict=True)` is
`unzip` (its `ValueError` on malformed rows cannot occur for a well-typed
series); backend/write failures (lines 199-201) are outside the pure
model. -/
def plot_memory (mem_data : List (ℚ × ℚ))
    (output_path : String := "memplot.png")
    (title : String := "Memory Usage Over Time") : Except PyExc PlotOutput :=
  if mem_data.isEmpty then
    .error ⟨.valueError, "No memory data provided to plot."⟩
  else
    .ok ⟨mem_data.map Prod.fst, mem_data.map Prod.snd, title, output_path⟩

/-- The per-row delta column of `export_to_html` (reporter.py lines
278-281): `delta[i] = memory[i] - memory[i-1]`, given the previous row's
memory value. -/
def deltaRows (prev : ℚ) : List (ℚ × ℚ) → List (ℚ × ℚ × ℚ)
  | [] => []
  | (t, m) :: rest => (t, m, m - prev) :: deltaRows m rest

/-- The data `export_to_html` injects into its template (reporter.py lines
266-295): summary statistics, the raw coordinate arrays, and the delta
table. -/
structure HtmlReport where
  peak_memory : ℚ
  avg_memory : ℚ
  min_memory : ℚ
  duration : ℚ
  sample_count : ℕ
  timestamps : List ℚ
  memories : List ℚ
  table_data : List (ℚ × ℚ × ℚ)

/-- `export_to_html` (reporter.py lines 240-304): the emptiness check of
lines 263-264 precedes everything; then peak/avg/min over the memory
column, `duration = timestamps[-1] if timestamps else 0` (line 274),
`delta[0] = 0.0` (line 280).  The Jinja template rendering and the write
(lines 284-299) are abstracted as the injected record. -/
def export_to_html (mem_data : List (ℚ × ℚ)) : Except PyExc HtmlReport :=
  match mem_data with
  | [] => .error ⟨.valueError, "No memory data provided to export."⟩
  | (t0, m0) :: rest =>
    let memories := m0 :: rest.map Prod.snd
    let timestamps := t0 :: rest.map Prod.fst
    .ok
      { peak_memory := (rest.map Prod.snd).foldl max m0
        avg_memory := memories.sum / memories.length
        min_memory := (rest.map Prod.snd).foldl min m0
        duration := timestamps.getLastD 0
        sample_count := mem_data.length
        timestamps := timestamps
        memories := memories
        table_data := (t0, m0, (0 : ℚ)) :: deltaRows m0 rest }

/-! ## Auxiliary notions used to state the claims -/

/-- The sample a tick's read produced (meaningful when the read succeeded). -/
def tickSample (u : Tick) : ℚ × ℚ :=
  match u.read with
  | .ok p => p
  | .error _ => (0, 0)

/-- The ticks of a sampler run that keeps going below the cap: the stop
signal is never observed, every footprint read succeeds, and every
timestamp stays below `D`. -/
def RunsBelow (D : ℚ) (pre : List Tick) : Prop :=
  ∀ u ∈ pre, u.stop = false ∧ u.read = .ok (tickSample u) ∧ (tickSample u).1 < D

/-- A tick on which the cap is reached: the stop signal is still unset, the
read succeeds, and the relative timestamp is at least `D`. -/
def ReachesCap (D : ℚ) (t : Tick) : Prop :=
  t.stop = false ∧ t.read = .ok (tickSample t) ∧ D ≤ (tickSample t).1

/-- The census mapping `analyze_live_objects` returns when given a valid
threshold (projection used to name the mapping in concrete statements). -/
def censusOk (heap : List HeapObj) (m : ℚ) : String → Option CensusEntry :=
  match analyze_live_objects heap m with
  | .ok f => f
  | .error _ => fun _ => none

/-- Concrete heap snapshot: one sized 2 KiB `list`, one unsized `dict`. -/
def heapW : List HeapObj := [⟨"list", some 2048⟩, ⟨"dict", none⟩]

/-- Concrete sampler iteration whose footprint read raises. -/
def errTick : Tick := ⟨false, .error ⟨.otherError, "process handle invalid"⟩⟩

/-- Concrete sampler iterations at relative timestamps 0, 1 and 2. -/
def tickA : Tick := ⟨false, .ok (0, 10)⟩

/-- See `tickA`. -/
def tickB : Tick := ⟨false, .ok (1, 11)⟩

/-- See `tickA`. -/
def tickC : Tick := ⟨false, .ok (2, 12)⟩

/-- Concrete sink behaviour: no PNG sink, a JSON sink whose body raises a
non-`OSError` exception, a CSV sink that would succeed. -/
def envCx : SinkEnv := ⟨none, some (some ⟨.valueError, "circular reference"⟩), some none⟩

/-! ### Census helper lemmas -/

theorem buildStats_go (heap : List HeapObj) :
    ∀ (acc : String → ℕ × ℕ) (ty : String),
      heap.foldl statsStep acc ty =
        ((acc ty).1 + sizedCount heap ty, (acc ty).2 + sizedTotal heap ty) := by
  induction heap with
  | nil => intro acc ty; simp [sizedCount, sizedTotal]
  | cons o rest ih =>
    intro acc ty
    rw [List.foldl_cons, ih]
    cases hsz : o.size with
    | none => simp [statsStep, hsz, sizedCount, sizedTotal]
    | some sz =>
      by_cases hty : o.typeName = ty
      · subst hty
        simp [statsStep, hsz, bump, sizedCount, sizedTotal]
        omega
      · have hty' : ¬ ty = o.typeName := fun h => hty h.symm
        simp [statsStep, hsz, bump, hty, hty', sizedCount, sizedTotal]

theorem buildStats_eq (heap : List HeapObj) (ty : String) :
    buildStats heap ty = (sizedCount heap ty, sizedTotal heap ty) := by
  simpa using buildStats_go heap (fun _ => (0, 0)) ty

theorem sizedTotal_eq_zero_of_count_eq_zero (heap : List HeapObj) (ty : String)
    (h : sizedCount heap ty = 0) : sizedTotal heap ty = 0 := by
  induction heap with
  | nil => rfl
  | cons o rest ih =>
    cases hsz : o.size with
    | none =>
      simp only [sizedCount, hsz, Nat.zero_add] at h
      simp only [sizedTotal, hsz, Nat.zero_add]
      exact ih h
    | some sz =>
      by_cases hty : o.typeName = ty
      · simp [sizedCount, hsz, hty] at h
      · simp only [sizedCount, hsz, if_neg hty, Nat.zero_add] at h
        simp only [sizedTotal, hsz, if_neg hty, Nat.zero_add]
        exact ih h

theorem roundHalfEven_nonneg (q : ℚ) (h : 0 ≤ q) : 0 ≤ roundHalfEven q := by
  have hf : (0 : ℤ) ≤ ⌊q⌋ := Int.floor_nonneg.mpr h
  unfold roundHalfEven
  split
  · exact hf
  · split
    · omega
    · split <;> omega

theorem round2_nonneg (q : ℚ) (h : 0 ≤ q) : 0 ≤ round2 q := by
  unfold round2
  have : (0 : ℚ) ≤ (roundHalfEven (q * 100) : ℚ) := by
    exact_mod_cast roundHalfEven_nonneg (q * 100) (by positivity)
  positivity

/-! ## C1 — invalid configuration is rejected up front -/

/-- C1: for every configuration, `interval ≤ 0` (or, for the scoped
tracker, a present `duration ≤ 0`) makes construction of the tracker fail
with the validation `ValueError` while the event trace is empty — no
background sampling has started and the unit of work was never invoked;
the unscoped tracker's configuration has no duration, so its only invalid
configuration is `interval ≤ 0`.  Likewise the census rejects every
negative `min_size_kb` with the validation `ValueError`, uniformly in the
heap — no object is walked. -/
theorem invalid_config_rejected {R : Type} (interval : ℚ) (duration : Option ℚ)
    (analyze_gc : Bool) (work : Except PyExc R) (ticks : List Tick)
    (env : SinkEnv) (gticks : List GTick) (heap : List HeapObj)
    (hbad : interval ≤ 0 ∨ ∃ d, duration = some d ∧ d ≤ 0) :
    (∃ msg, track_memory_run interval duration analyze_gc work ticks heap
        = (.error (.invalidArgument msg), []))
    ∧ (interval ≤ 0 → ∃ msg, global_tracker_run interval env work gticks
        = (.error (.invalidArgument msg), [], []))
    ∧ ∀ m : ℚ, m < 0 → ∀ h : List HeapObj,
        analyze_live_objects h m
          = .error ⟨.valueError, "min_size_kb must be non-negative"⟩ := by
  refine ⟨?_, ?_, ?_⟩
  · by_cases hi : interval ≤ 0
    · exact ⟨"Interval must be positive", by simp [track_memory_run, hi]⟩
    · obtain ⟨d, hdur, hd⟩ := hbad.resolve_left hi
      exact ⟨"Duration must be positive or None",
        by simp [track_memory_run, durInvalid, hi, hdur, hd]⟩
  · intro hi
    exact ⟨"Interval must be positive", by simp [global_tracker_run, hi]⟩
  · intro m hm h
    simp [analyze_live_objects, hm]

/-- Witness for C1 at `interval = -1`. -/
theorem invalid_config_rejected_witness :
    ∃ msg, track_memory_run (-1 : ℚ) (some (-2 : ℚ)) true (Except.ok (0 : ℕ)) [] []
      = (.error (.invalidArgument msg), []) :=
  (invalid_config_rejected (-1) (some (-2)) true (Except.ok 0) [] ⟨none, none, none⟩ [] []
    (Or.inl (by norm_num))).1

/-! ## C2 — work failure takes precedence over tracking failure -/

/-- A valid `duration` never trips the validation guard of
`track_memory_run`. -/
theorem durGuard_false (duration : Option ℚ) (hd : ∀ d, duration = some d → 0 < d) :
    durInvalid duration = false := by
  cases duration with
  | none => rfl
  | some d => simpa [durInvalid] using not_le.mpr (hd d rfl)

/-- C2: under a valid configuration, a fatal sampler failure surfaces to
the caller as the `RuntimeError` exactly when the unit of work itself
succeeded; when the unit of work failed, its own exception is what the
caller observes (after the sampler was stopped and joined — the trace ends
with the join), never the tracking failure. -/
theorem scoped_failure_precedence {R : Type} (interval : ℚ) (duration : Option ℚ)
    (analyze_gc : Bool) (work : Except PyExc R) (ticks : List Tick)
    (heap : List HeapObj)
    (hi : 0 < interval) (hd : ∀ d, duration = some d → 0 < d) :
    (∀ r e, work = .ok r → (monitor duration ticks).2 = some e →
      track_memory_run interval duration analyze_gc work ticks heap
        = (.error (.runtimeError e), [.samplerStarted, .workInvoked, .samplerJoined]))
    ∧ (∀ e, work = .error e →
      track_memory_run interval duration analyze_gc work ticks heap
        = (.error (.workFailure e), [.samplerStarted, .workInvoked, .samplerJoined])) := by
  have hni : ¬ interval ≤ 0 := not_le.mpr hi
  have hnd := durGuard_false duration hd
  constructor
  · intro r e hw hm
    subst hw
    simp [track_memory_run, hni, hnd, hm]
  · intro e hw
    subst hw
    simp [track_memory_run, hni, hnd]

/-- Witness for C2: a read failure on the only tick, unit of work
succeeding. -/
theorem scoped_failure_precedence_witness :
    track_memory_run 1 none false (Except.ok (0 : ℕ)) [errTick] []
      = (.error (.runtimeError ⟨.otherError, "process handle invalid"⟩),
         [.samplerStarted, .workInvoked, .samplerJoined]) :=
  (scoped_failure_precedence 1 none false (Except.ok 0) [errTick] []
    (by norm_num) (fun d hd => by cases hd)).1
    0 ⟨.otherError, "process handle invalid"⟩ rfl rfl

/-! ## C6 — empty series rejected by every export sink -/

/-- C6: the empty series makes every export sink (static plot, CSV table,
interactive HTML document) fail with the `EmptyInput` (`ValueError`)
condition.  In each source function the emptiness check precedes the block
that opens/writes the destination, which the pure model reflects: the
`.error` result carries no written output, so no partial file exists. -/
theorem empty_series_exports_fail :
    (∀ path ttl, plot_memory [] path ttl
        = .error ⟨.valueError, "No memory data provided to plot."⟩)
    ∧ export_to_csv [] = .error ⟨.valueError, "No memory data provided to export."⟩
    ∧ export_to_html [] = .error ⟨.valueError, "No memory data provided to export."⟩ :=
  ⟨fun _ _ => rfl, rfl, rfl⟩

/-! ## C8 — JSON sink round-trips the series -/

theorem json_read_items_dump (s : List (ℚ × ℚ)) :
    json_read_items (s.map fun p => JsonVal.arr [JsonVal.num p.1, JsonVal.num p.2])
      = some (s.map fun p => (JsonVal.num p.1, JsonVal.num p.2)) := by
  induction s with
  | nil => rfl
  | cons p rest ih => simp [json_read_items, json_read_pair, ih]

/-- C8: the JSON sink writes the series as an ordered array of two-element
`[timestamp, footprint_mb]` arrays, and the CLI `convert` reader accepts
that document and yields, in series order, one pair per sample whose two
components are the JSON numbers carrying exactly the original timestamp
and footprint (numerical equality is exact under the rational model of
float values). -/
theorem json_series_roundtrip (s : List (ℚ × ℚ)) :
    json_read_series (json_dump_series s)
      = some (s.map fun p => (JsonVal.num p.1, JsonVal.num p.2)) := by
  simpa [json_dump_series, json_read_series] using json_read_items_dump s

/-! ## C10 — census entries have positive count and non-negative size -/

/-- C10: every entry of a successful census has `count ≥ 1` and
`total_size_kb ≥ 0`: an entry exists only for a type with at least one
successfully sized object, and the reported size is a rounding of a
non-negative quantity. -/
theorem census_entry_invariant (heap : List HeapObj) (m : ℚ)
    (lm : String → Option CensusEntry)
    (hok : analyze_live_objects heap m = .ok lm) :
    ∀ ty e, lm ty = some e → 1 ≤ e.count ∧ 0 ≤ e.total_size_kb := by
  intro ty e he
  by_cases hm : m < 0
  · simp [analyze_live_objects, hm] at hok
  · simp only [analyze_live_objects, if_neg hm] at hok
    obtain rfl := Except.ok.inj hok
    simp only [buildStats_eq] at he
    by_cases hc : sizedCount heap ty ≠ 0 ∧ m < (sizedTotal heap ty : ℚ) / 1024
    · rw [if_pos hc] at he
      obtain ⟨hc1, _⟩ := hc
      obtain rfl := Option.some.inj he
      refine ⟨Nat.one_le_iff_ne_zero.mpr hc1, round2_nonneg _ (by positivity)⟩
    · rw [if_neg hc] at he
      exact absurd he (Option.noConfusion)

/-- Witness for C10 on the concrete heap `heapW` at threshold 0: the
`list` entry is `{count := 1, total_size_kb := 2}`. -/
theorem census_entry_invariant_witness :
    1 ≤ (⟨1, 2⟩ : CensusEntry).count ∧ (0 : ℚ) ≤ (⟨1, 2⟩ : CensusEntry).total_size_kb :=
  census_entry_invariant heapW 0 (censusOk heapW 0) rfl "list" ⟨1, 2⟩
    (by norm_num [censusOk, analyze_live_objects, heapW, buildStats_eq,
      sizedCount, sizedTotal, round2, roundHalfEven])

/-! ## C5 — the census threshold is a strict filter, antitone in the
threshold -/

/-- C5: a successful census at a valid threshold `a` contains exactly the
types whose accumulated shallow size strictly exceeds `a` kilobytes, and
for thresholds `a ≤ b` every entry of the census at `b` is an entry of the
census at `a` (so the census at threshold 0 is a superset of the census at
any larger threshold on the same heap state). -/
theorem census_threshold_filter (heap : List HeapObj) (a b : ℚ)
    (lma lmb : String → Option CensusEntry)
    (ha : 0 ≤ a) (hab : a ≤ b)
    (hka : analyze_live_objects heap a = .ok lma)
    (hkb : analyze_live_objects heap b = .ok lmb) :
    (∀ ty, (lma ty).isSome ↔ a < (sizedTotal heap ty : ℚ) / 1024)
    ∧ (∀ ty e, lmb ty = some e → lma ty = some e) := by
  have hna : ¬ a < 0 := not_lt.mpr ha
  have hnb : ¬ b < 0 := not_lt.mpr (le_trans ha hab)
  simp only [analyze_live_objects, if_neg hna] at hka
  simp only [analyze_live_objects, if_neg hnb] at hkb
  obtain rfl := Except.ok.inj hka
  obtain rfl := Except.ok.inj hkb
  constructor
  · intro ty
    simp only [buildStats_eq]
    by_cases hc : sizedCount heap ty ≠ 0 ∧ a < (sizedTotal heap ty : ℚ) / 1024
    · rw [if_pos hc]
      simpa using hc.2
    · rw [if_neg hc]
      simp only [Option.isSome_none, Bool.false_eq_true, false_iff]
      intro hlt
      refine hc ⟨fun hzero => ?_, hlt⟩
      rw [sizedTotal_eq_zero_of_count_eq_zero heap ty hzero] at hlt
      norm_num at hlt
      exact absurd hlt (not_lt.mpr ha)
  · intro ty e he
    simp only [buildStats_eq] at he ⊢
    by_cases hc : sizedCount heap ty ≠ 0 ∧ b < (sizedTotal heap ty : ℚ) / 1024
    · rw [if_pos hc] at he
      rw [if_pos ⟨hc.1, lt_of_le_of_lt hab hc.2⟩]
      exact he
    · rw [if_neg hc] at he
      exact absurd he (Option.noConfusion)

/-- Witness for C5 on the concrete heap `heapW` with thresholds 0 and 1:
the characterisation of the threshold-0 census at type `list`. -/
theorem census_threshold_filter_witness :
    (censusOk heapW 0 "list").isSome ↔ (0 : ℚ) < (sizedTotal heapW "list" : ℚ) / 1024 :=
  (census_threshold_filter heapW 0 1 (censusOk heapW 0) (censusOk heapW 1)
    (by norm_num) (by norm_num) rfl rfl).1 "list"

/-! ## C9 — the scoped tracker's census runs at the built-in threshold 100 -/

/-- C9: with `analyze_gc = true` and an otherwise successful run, the
scoped tracker attaches the census obtained from `analyze_live_objects`
called with no threshold argument — its default, 100 — so every type whose
accumulated shallow size is at or below 100 KB is absent from
`live_objects`; the tracker exposes no way to change that threshold (the
call site passes no argument, which the second conjunct records). -/
theorem scoped_census_default_threshold {R : Type} (interval : ℚ)
    (duration : Option ℚ) (r : R) (ticks : List Tick) (heap : List HeapObj)
    (hi : 0 < interval) (hd : ∀ d, duration = some d → 0 < d)
    (hm : (monitor duration ticks).2 = none) :
    track_memory_run interval duration true (Except.ok r) ticks heap
      = (.ok ⟨r, (monitor duration ticks).1, some (runCensus heap)⟩,
         [.samplerStarted, .workInvoked, .samplerJoined, .censusRun])
    ∧ analyze_live_objects heap = analyze_live_objects heap 100
    ∧ ∀ ty, (sizedTotal heap ty : ℚ) / 1024 ≤ 100 → runCensus heap ty = none := by
  have hni : ¬ interval ≤ 0 := not_le.mpr hi
  have hnd := durGuard_false duration hd
  refine ⟨by simp [track_memory_run, hni, hnd, hm], rfl, ?_⟩
  intro ty hty
  have h100 : ¬ (100 : ℚ) < 0 := by norm_num
  simp only [runCensus, analyze_live_objects, if_neg h100, buildStats_eq]
  rw [if_neg]
  intro hc
  exact absurd hc.2 (not_lt.mpr hty)

/-- Witness for C9: on `heapW` the `list` type accumulates 2 KB ≤ 100 KB
and is absent from the attached census. -/
theorem scoped_census_default_threshold_witness :
    runCensus heapW "list" = none :=
  (scoped_census_default_threshold 1 none 0 [] heapW (by norm_num)
    (fun d hd => by cases hd) rfl).2.2 "list"
    (by norm_num [heapW, sizedTotal])

/-! ## C3 — export sink failure isolation -/

/-- Counterexample to C3 as stated: not *every* failure raised inside a
sink is isolated.  The JSON and CSV sinks only catch `OSError`
(`tracker.py` lines 282, 295); here the JSON sink's body raises a
`ValueError`-class exception while the unit of work succeeded with `0`,
yet the caller does not observe `0` (the escaping exception replaces the
work's result, Python `finally` semantics) and the configured CSV sink is
never attempted. -/
theorem export_failure_escapes_cx :
    (global_tracker_run 1 envCx (Except.ok (0 : ℕ)) []).1 ≠ Except.ok 0
    ∧ Event.sinkCsv ∉ (global_tracker_run 1 envCx (Except.ok (0 : ℕ)) []).2.1 := by
  constructor
  · decide
  · decide

theorem ioCaught_of_osError {e : PyExc} (h : e.cls = ExcKind.osError) :
    ioCaught e = true := by
  simp [ioCaught, h]

/-- When every configured sink's failure, if any, is of a class its
handler catches, the export block completes; each configured sink is
attempted. -/
theorem runExports_caught (env : SinkEnv)
    (hjson : ∀ e, env.json = some (some e) → e.cls = ExcKind.osError)
    (hcsv : ∀ e, env.csv = some (some e) → e.cls = ExcKind.osError) :
    (runExports env).1 = none
    ∧ (env.png ≠ none → Event.sinkPng ∈ (runExports env).2)
    ∧ (env.json ≠ none → Event.sinkJson ∈ (runExports env).2)
    ∧ (env.csv ≠ none → Event.sinkCsv ∈ (runExports env).2) := by
  obtain ⟨p, j, c⟩ := env
  have hj : (runSink j ioCaught .sinkJson).1 = none := by
    match j with
    | none => rfl
    | some none => rfl
    | some (some e) => simp [runSink, ioCaught_of_osError (hjson e rfl)]
  have hc : (runSink c ioCaught .sinkCsv).1 = none := by
    match c with
    | none => rfl
    | some none => rfl
    | some (some e) => simp [runSink, ioCaught_of_osError (hcsv e rfl)]
  have hp : (runSink p pngCaught .sinkPng).1 = none := by
    match p with
    | none => rfl
    | some none => rfl
    | some (some e) => simp [runSink, pngCaught]
  have hpe : p ≠ none → Event.sinkPng ∈ (runSink p pngCaught .sinkPng).2 := by
    match p with
    | none => intro h; exact absurd rfl h
    | some none => intro _; simp [runSink]
    | some (some e) => intro _; simp [runSink]
  have hje : j ≠ none → Event.sinkJson ∈ (runSink j ioCaught .sinkJson).2 := by
    match j with
    | none => intro h; exact absurd rfl h
    | some none => intro _; simp [runSink]
    | some (some e) => intro _; simp [runSink]
  have hce : c ≠ none → Event.sinkCsv ∈ (runSink c ioCaught .sinkCsv).2 := by
    match c with
    | none => intro h; exact absurd rfl h
    | some none => intro _; simp [runSink]
    | some (some e) => intro _; simp [runSink]
  refine ⟨?_, ?_, ?_, ?_⟩ <;>
    simp_all [runExports, hp, hj, hc]

/-- C3 amended: a failure raised inside a sink is isolated — logged, does
not mask the unit of work's own result or failure, and does not prevent
the remaining sinks from being attempted — *provided* it is of a class
the sink's handler covers: any `Exception` for the PNG sink
(`except ImportError` / `except Exception`), but only `OSError` for the
JSON and CSV sinks (`except OSError`); under that proviso each configured
sink is attempted independently of the others' outcomes. -/
theorem global_exports_isolated {R : Type} (interval : ℚ) (env : SinkEnv)
    (work : Except PyExc R) (gticks : List GTick)
    (hi : 0 < interval)
    (hjson : ∀ e, env.json = some (some e) → e.cls = ExcKind.osError)
    (hcsv : ∀ e, env.csv = some (some e) → e.cls = ExcKind.osError) :
    (∀ r, work = .ok r → (global_tracker_run interval env work gticks).1 = .ok r)
    ∧ (∀ e, work = .error e →
        (global_tracker_run interval env work gticks).1 = .error (.workFailure e))
    ∧ (env.png ≠ none → Event.sinkPng ∈ (global_tracker_run interval env work gticks).2.1)
    ∧ (env.json ≠ none → Event.sinkJson ∈ (global_tracker_run interval env work gticks).2.1)
    ∧ (env.csv ≠ none → Event.sinkCsv ∈ (global_tracker_run interval env work gticks).2.1) := by
  have hni : ¬ interval ≤ 0 := not_le.mpr hi
  obtain ⟨hex, hpe, hje, hce⟩ := runExports_caught env hjson hcsv
  refine ⟨?_, ?_, ?_, ?_, ?_⟩
  · intro r hw
    subst hw
    simp [global_tracker_run, hni, hex]
  · intro e hw
    subst hw
    simp [global_tracker_run, hni, hex]
  · intro h
    have hmem := hpe h
    cases hw : work <;> simp [global_tracker_run, hni, hex, hmem]
  · intro h
    have hmem := hje h
    cases hw : work <;> simp [global_tracker_run, hni, hex, hmem]
  · intro h
    have hmem := hce h
    cases hw : work <;> simp [global_tracker_run, hni, hex, hmem]

/-- Witness for C3 (amended): all three sinks configured, the JSON sink
failing with an `OSError`; the work's result is still what the caller
observes. -/
theorem global_exports_isolated_witness :
    (global_tracker_run 1
      ⟨some none, some (some ⟨ExcKind.osError, "disk full"⟩), some none⟩
      (Except.ok (7 : ℕ)) []).1 = Except.ok 7 :=
  (global_exports_isolated 1
    ⟨some none, some (some ⟨ExcKind.osError, "disk full"⟩), some none⟩
    (Except.ok 7) [] (by norm_num)
    (fun e he => by
      simp only [Option.some.injEq] at he
      subst he
      rfl)
    (fun e he => by simp at he)).1 7 rfl

/-! ## C7 — CSV export shape -/

theorem getD_map_lt {α β : Type} (f : α → β) (l : List α) (d : α) (d' : β) :
    ∀ i, i < l.length → (l.map f).getD i d' = f (l.getD i d) := by
  induction l with
  | nil => intro i hi; simp at hi
  | cons x xs ih =>
    intro i hi
    cases i with
    | zero => rfl
    | succ k =>
      simp only [List.map_cons, List.getD_cons_succ]
      exact ih k (by simpa using hi)

/-- Counterexample to C7 as stated: the unscoped tracker's CSV sink does
not write the header `timestamp_seconds,memory_mb` — its hand-written
header (`tracker.py` line 291) is `timestamp,memory_mb`. -/
theorem global_csv_header_cx :
    ¬ (global_csv_lines [((0 : ℚ), (0 : ℚ))]).headD "" = "timestamp_seconds,memory_mb" := by
  intro h
  simp only [global_csv_lines, List.headD_cons] at h
  exact absurd h (by decide)

/-- C7 amended: for every non-empty series, each CSV export writes a
header line followed by exactly one row per sample, in series order; the
standalone renderer's header is `timestamp_seconds,memory_mb`
(`reporter.py` line 231) while the unscoped tracker's CSV sink writes the
header `timestamp,memory_mb` (`tracker.py` line 291) — the two headers
differ. -/
theorem csv_export_shape (mem_data : List (ℚ × ℚ)) (h : mem_data ≠ []) :
    (∃ lines, export_to_csv mem_data = .ok lines
      ∧ lines.headD "" = "timestamp_seconds,memory_mb"
      ∧ lines.length = mem_data.length + 1
      ∧ ∀ i, i < mem_data.length →
          lines.getD (i + 1) "" = csvRow (mem_data.getD i (0, 0)))
    ∧ ((global_csv_lines mem_data).headD "" = "timestamp,memory_mb"
      ∧ (global_csv_lines mem_data).length = mem_data.length + 1
      ∧ ∀ i, i < mem_data.length →
          (global_csv_lines mem_data).getD (i + 1) ""
            = formatFixed 3 (mem_data.getD i (0, 0)).1 ++ ","
              ++ formatFixed 2 (mem_data.getD i (0, 0)).2) := by
  have hne : ¬ mem_data.isEmpty := by simpa [List.isEmpty_iff] using h
  constructor
  · refine ⟨"timestamp_seconds,memory_mb" :: mem_data.map csvRow, ?_, rfl, by simp, ?_⟩
    · simp [export_to_csv, hne]
    · intro i hi
      simpa using getD_map_lt csvRow mem_data (0, 0) "" i hi
  · refine ⟨rfl, by simp [global_csv_lines], ?_⟩
    intro i hi
    simpa [global_csv_lines] using
      getD_map_lt (fun p => formatFixed 3 p.1 ++ "," ++ formatFixed 2 p.2)
        mem_data (0, 0) "" i hi

/-- Witness for C7 (amended) at the one-sample series `[(0, 0)]`. -/
theorem csv_export_shape_witness :
    ∃ lines, export_to_csv [((0 : ℚ), (0 : ℚ))] = .ok lines
      ∧ lines.headD "" = "timestamp_seconds,memory_mb"
      ∧ lines.length = [((0 : ℚ), (0 : ℚ))].length + 1
      ∧ ∀ i, i < [((0 : ℚ), (0 : ℚ))].length →
          lines.getD (i + 1) "" = csvRow ([((0 : ℚ), (0 : ℚ))].getD i (0, 0)) :=
  (csv_export_shape [((0 : ℚ), (0 : ℚ))] (by simp)).1

/-! ## C4 — the cap duration terminates the sampler -/

theorem durationBreak_some {D ts : ℚ} (hD : 0 < D) :
    durationBreak (some D) ts = decide (D ≤ ts) := by
  have hne : D ≠ 0 := ne_of_gt hD
  simp [durationBreak, hne]

/-- Every sample of a capped sampler run other than the last has a
timestamp strictly below the cap: once a sample at or past the cap is
appended, the loop breaks, so no further sample ever follows it. -/
theorem monitor_cap_no_late_sample (D : ℚ) (hD : 0 < D) :
    ∀ ticks : List Tick, ∀ i : ℕ, i + 1 < (monitor (some D) ticks).1.length →
      ((monitor (some D) ticks).1.getD i (0, 0)).1 < D := by
  intro ticks
  induction ticks with
  | nil => intro i hi; simp [monitor] at hi
  | cons t ts ih =>
    intro i hi
    by_cases hstop : t.stop
    · simp [monitor, hstop] at hi
    · simp only [Bool.not_eq_true] at hstop
      cases hread : t.read with
      | error e => simp [monitor, hstop, hread] at hi
      | ok s =>
        by_cases hbrk : durationBreak (some D) s.1
        · simp [monitor, hstop, hread, hbrk] at hi
        · simp only [Bool.not_eq_true] at hbrk
          have hlt : s.1 < D := by
            rw [durationBreak_some hD] at hbrk
            simpa using hbrk
          simp only [monitor, hstop, hread, hbrk] at hi ⊢
          simp only [Bool.false_eq_true, if_false, List.length_cons] at hi
          cases i with
          | zero => simpa using hlt
          | succ k =>
            simp only [Bool.false_eq_true, if_false, List.getD_cons_succ]
            exact ih k (by omega)

/-- Once the cap is reached the sampler never consumes further ticks: its
run over any continuation equals its run up to the breaking tick. -/
theorem monitor_stops_at_cap (D : ℚ) (hD : 0 < D) :
    ∀ (pre : List Tick) (t : Tick) (post : List Tick),
      RunsBelow D pre → ReachesCap D t →
      monitor (some D) (pre ++ t :: post) = monitor (some D) (pre ++ [t]) := by
  intro pre
  induction pre with
  | nil =>
    intro t post _ ht
    obtain ⟨hstop, hread, hge⟩ := ht
    have hbrk : durationBreak (some D) (tickSample t).1 = true := by
      rw [durationBreak_some hD]; exact decide_eq_true hge
    simp [monitor, hstop, hread, hbrk]
  | cons u pre' ih =>
    intro t post hpre ht
    obtain ⟨hstop, hread, hlt⟩ := hpre u (List.mem_cons_self u pre')
    have hbrk : durationBreak (some D) (tickSample u).1 = false := by
      rw [durationBreak_some hD]
      exact decide_eq_false (not_le.mpr hlt)
    have hpre' : RunsBelow D pre' := fun v hv => hpre v (List.mem_cons_of_mem u hv)
    simp only [List.cons_append, monitor, hstop, hread, hbrk, List.append_eq]
    rw [ih t post hpre' ht]

/-- On a run that stays below the cap and then reaches it, the recorded
series is exactly the ticks' samples and no monitor error occurred. -/
theorem monitor_cap_samples (D : ℚ) (hD : 0 < D) :
    ∀ (pre : List Tick) (t : Tick), RunsBelow D pre → ReachesCap D t →
      monitor (some D) (pre ++ [t]) = ((pre ++ [t]).map tickSample, none) := by
  intro pre
  induction pre with
  | nil =>
    intro t _ ht
    obtain ⟨hstop, hread, hge⟩ := ht
    have hbrk : durationBreak (some D) (tickSample t).1 = true := by
      rw [durationBreak_some hD]; exact decide_eq_true hge
    simp [monitor, hstop, hread, hbrk]
  | cons u pre' ih =>
    intro t hpre ht
    obtain ⟨hstop, hread, hlt⟩ := hpre u (List.mem_cons_self u pre')
    have hbrk : durationBreak (some D) (tickSample u).1 = false := by
      rw [durationBreak_some hD]
      exact decide_eq_false (not_le.mpr hlt)
    have hpre' : RunsBelow D pre' := fun v hv => hpre v (List.mem_cons_of_mem u hv)
    simp only [List.cons_append, monitor, hstop, hread, hbrk, List.map_cons,
      List.append_eq]
    rw [ih t hpre' ht]
    simp

/-- The breaking sample's timestamp is within one step's slack of the cap:
adjacent read timestamps differ by at most `slack` and the first read
happens within `slack` of the start, so every recorded timestamp stays
below `D + slack`. -/
theorem monitor_cap_slack (D slack : ℚ) (hD : 0 < D) (hs : 0 ≤ slack) :
    ∀ (pre : List Tick) (t : Tick), RunsBelow D pre → ReachesCap D t →
      (((pre ++ [t]).map fun u => (tickSample u).1).headD 0 ≤ slack) →
      List.Chain' (fun a b => b ≤ a + slack)
        ((pre ++ [t]).map fun u => (tickSample u).1) →
      ∀ p ∈ (monitor (some D) (pre ++ [t])).1, p.1 < D + slack := by
  intro pre t hpre ht hhead hchain p hp
  rw [monitor_cap_samples D hD pre t hpre ht] at hp
  obtain ⟨u, hu, rfl⟩ := List.mem_map.mp hp
  rcases List.mem_append.mp hu with hu | hu
  · have hlt := (hpre u hu).2.2
    linarith
  · have hut : u = t := by simpa using hu
    subst hut
    rcases List.eq_nil_or_concat pre with rfl | ⟨pre', v, rfl⟩
    · simp only [List.nil_append, List.map_cons, List.map_nil, List.headD_cons] at hhead
      linarith
    · simp only [List.concat_eq_append] at hpre hhead hchain
      have hv := hpre v (by simp)
      have hrel : (tickSample u).1 ≤ (tickSample v).1 + slack := by
        have hmap : (((pre' ++ [v]) ++ [u]).map fun w => (tickSample w).1)
            = ((pre' ++ [v]).map fun w => (tickSample w).1) ++ [(tickSample u).1] := by
          simp
        rw [hmap] at hchain
        obtain ⟨-, -, hcross⟩ := List.chain'_append.mp hchain
        refine hcross _ ?_ _ ?_
        · rw [List.map_append]
          simp [List.getLast?_concat]
        · simp
      have hvD : (tickSample v).1 < D := hv.2.2
      linarith

/-- C4: for a configured cap `D > 0`, (i) in every sampler run any sample
other than the last has a timestamp strictly below `D` — after the first
appended sample with timestamp ≥ `D` no further sample is ever appended;
(ii) on a run whose reads stay below `D` and then reach it, the sampler
terminates on its own — any further ticks (the unit of work still
running, the stop signal never set) are never consumed; (iii) if
moreover the first read happens within `slack` of the start and adjacent
reads are at most `slack` apart (one sleep plus one sample read), every
recorded timestamp — the last one in particular — stays below
`D + slack`. -/
theorem sampler_duration_cap (D slack : ℚ) (hD : 0 < D) (hs : 0 ≤ slack) :
    (∀ ticks : List Tick, ∀ i : ℕ, i + 1 < (monitor (some D) ticks).1.length →
      ((monitor (some D) ticks).1.getD i (0, 0)).1 < D)
    ∧ (∀ (pre : List Tick) (t : Tick) (post : List Tick),
        RunsBelow D pre → ReachesCap D t →
        monitor (some D) (pre ++ t :: post) = monitor (some D) (pre ++ [t]))
    ∧ (∀ (pre : List Tick) (t : Tick), RunsBelow D pre → ReachesCap D t →
        (((pre ++ [t]).map fun u => (tickSample u).1).headD 0 ≤ slack) →
        List.Chain' (fun a b => b ≤ a + slack)
          ((pre ++ [t]).map fun u => (tickSample u).1) →
        ∀ p ∈ (monitor (some D) (pre ++ [t])).1, p.1 < D + slack) :=
  ⟨monitor_cap_no_late_sample D hD, monitor_stops_at_cap D hD,
    monitor_cap_slack D slack hD hs⟩

/-- Witness for C4 at `D = 2`, `slack = 1`: ticks at timestamps 0, 1, 2
followed by a further tick that is never consumed. -/
theorem sampler_duration_cap_witness :
    monitor (some 2) [tickA, tickB, tickC, tickB]
      = monitor (some 2) [tickA, tickB, tickC] :=
  (sampler_duration_cap 2 1 (by norm_num) (by norm_num)).2.1 [tickA, tickB] tickC [tickB]
    (by
      intro u hu
      fin_cases hu
      · exact ⟨rfl, rfl, by norm_num [tickSample, tickA]⟩
      · exact ⟨rfl, rfl, by norm_num [tickSample, tickB]⟩)
    ⟨rfl, rfl, by norm_num [tickSample, tickC]⟩

end Memprofilerx
